import Mathlib

/-!
Verification of the `geomeppy` builder module (`geomeppy/builder.py`).

The module derives a building envelope (per-storey floors, ceilings, walls
and a roof) from a 2-D footprint outline, a total height, a storey count,
a below-ground storey count and a below-ground storey height, and wraps
surface sets into `Zone` objects that drop zero-area walls.

Scalars are modelled as rationals.  Python property accesses that can raise
(the division by zero in `storey_height`, the out-of-range index in
`Block.__init__` on an empty coordinate list) are modelled with `Option`:
`none` is a raised exception, `some` a normal return value.

The polygon primitives (`geomeppy.polygons.Polygon3D`, `geomeppy.vectors.
Vector3D`) are consumed by `builder.py` but their module is not part of the
sources verified here; the handful of operations the builder uses
(construction from points, translation, edge enumeration, orientation
inversion, area query) are modelled from their specification and are marked
`Modelled from the spec:` below.
-/

/-- A 3-D point / displacement with rational coordinates
(model of `geomeppy.vectors.Vector3D`). -/
structure Vector3D where
  x : ℚ
  y : ℚ
  z : ℚ
deriving DecidableEq

instance : Inhabited Vector3D := ⟨⟨0, 0, 0⟩⟩

/-- Componentwise addition of vectors (Python `+` on `Vector3D`,
also used for the tuple offsets `p + (0,0,h)` in `make_wall`). -/
def Vector3D.add (a b : Vector3D) : Vector3D :=
  ⟨a.x + b.x, a.y + b.y, a.z + b.z⟩

/-- Cross product, used only by the modelled area query. -/
def Vector3D.cross (a b : Vector3D) : Vector3D :=
  ⟨a.y * b.z - a.z * b.y, a.z * b.x - a.x * b.z, a.x * b.y - a.y * b.x⟩

/-- Squared Euclidean norm, used only by the modelled area query. -/
def Vector3D.normSq (a : Vector3D) : ℚ :=
  a.x * a.x + a.y * a.y + a.z * a.z

/-- A 3-D polygon: an ordered list of vertices
(model of `geomeppy.polygons.Polygon3D`). -/
structure Polygon3D where
  vertices : List Vector3D
deriving DecidableEq

instance : Inhabited Polygon3D := ⟨⟨[]⟩⟩

/-- An ordered polygon edge with endpoints `p1`, `p2`
(the objects yielded by `Polygon3D.edges`, consumed by `make_wall`). -/
structure Edge where
  p1 : Vector3D
  p2 : Vector3D
deriving DecidableEq

/-- Modelled from the spec: `Polygon3D.edges` (module `geomeppy.polygons`
is outside the verified sources) enumerates edges as ordered endpoint
pairs of consecutive vertices, wrapping from the last vertex back to the
first. -/
def Polygon3D.edges (p : Polygon3D) : List Edge :=
  (List.range p.vertices.length).map fun i =>
    ⟨p.vertices.getD i default, p.vertices.getD ((i + 1) % p.vertices.length) default⟩

/-- Modelled from the spec: `Polygon3D.invert_orientation` (module
`geomeppy.polygons` is outside the verified sources) produces a polygon
with reversed winding, i.e. the reversed vertex list. -/
def Polygon3D.invert_orientation (p : Polygon3D) : Polygon3D :=
  ⟨p.vertices.reverse⟩

/-- Translation of every vertex by a displacement (Python `+` on
`Polygon3D`, spec: "addition of a displacement to every vertex"). -/
def Polygon3D.translate (p : Polygon3D) (v : Vector3D) : Polygon3D :=
  ⟨p.vertices.map (·.add v)⟩

/-- Twice the vector area of a polygon: the sum of `p1 × p2` over its
edges.  For a planar polygon the scalar area is half the norm of this
vector.  Auxiliary to the modelled area query. -/
def Polygon3D.vectorAreaTwice (p : Polygon3D) : Vector3D :=
  p.edges.foldr (fun e acc => (e.p1.cross e.p2).add acc) ⟨0, 0, 0⟩

/-- Modelled from the spec: the `Polygon3D.area` query (module
`geomeppy.polygons` is outside the verified sources), used only through
the strict-positivity test `s.area > 0`.  Since the scalar area equals
`‖vectorAreaTwice‖ / 2`, the area is positive exactly when this rational
squared magnitude is positive, which keeps the embedding in `ℚ`. -/
def Polygon3D.areaSq4 (p : Polygon3D) : ℚ :=
  p.vectorAreaTwice.normSq

/-- A Python object appearing inside a surface-group list entry: either a
`Polygon3D` or the `None` placeholder used by `Block.roofs`. -/
inductive PyObj where
  | poly (p : Polygon3D)
  | pynone
deriving DecidableEq

/-- One entry of a per-storey surface group as produced by `Block`:
either a Python list of objects, or the bare string placeholder `''`
appended by `Block.ceilings`. -/
inductive SurfEntry where
  | objs (l : List PyObj)
  | str (s : String)
deriving DecidableEq

instance : Inhabited SurfEntry := ⟨.objs []⟩

/-- The state of a `Block` instance after `__init__` has run: the stored
attributes, exactly as assigned by `Block.__init__`. -/
structure Block where
  name : String
  coordinates : List (ℚ × ℚ)
  height : ℚ
  num_stories : ℕ
  num_below_ground_stories : ℕ
  below_ground_storey_height : ℚ
deriving DecidableEq

/-- `Block.__init__`: if the first coordinate equals the last, the
duplicate closing point is popped before storage.  On an empty coordinate
list the closure check `coordinates[0] == coordinates[-1]` raises an
index error, modelled as `none`. -/
def mkBlock (name : String) (coordinates : List (ℚ × ℚ)) (height : ℚ)
    (num_stories : ℕ) (below_ground_stories : ℕ)
    (below_ground_storey_height : ℚ) : Option Block :=
  match coordinates.head?, coordinates.getLast? with
  | some c0, some cl =>
      some { name := name
             coordinates := if c0 = cl then coordinates.dropLast else coordinates
             height := height
             num_stories := num_stories
             num_below_ground_stories := below_ground_stories
             below_ground_storey_height := below_ground_storey_height }
  | _, _ => none

/-- `Block.footprint`: the stored outline lifted to elevation 0. -/
def Block.footprint (b : Block) : Polygon3D :=
  ⟨b.coordinates.map fun v => ⟨v.1, v.2, 0⟩⟩

/-- `Block.lowest_floor_level`: `-(num_below_ground_stories *
below_ground_storey_height)`. -/
def Block.lowest_floor_level (b : Block) : ℚ :=
  -((b.num_below_ground_stories : ℚ) * b.below_ground_storey_height)

/-- `Block.storey_height`: `height / (num_stories -
num_below_ground_stories)`.  When the subtraction is zero Python raises
`ZeroDivisionError`, modelled as `none`; a negative difference divides
normally. -/
def Block.storey_height (b : Block) : Option ℚ :=
  if ((b.num_stories : ℤ) - (b.num_below_ground_stories : ℤ)) = 0 then none
  else some (b.height / (((b.num_stories : ℤ) - (b.num_below_ground_stories : ℤ) : ℤ) : ℚ))

/-- `Block.floor_heights`: `[lowest_floor_level + storey_height * i
for i in range(num_stories)]`. -/
def Block.floor_heights (b : Block) : Option (List ℚ) :=
  b.storey_height.map fun sh =>
    (List.range b.num_stories).map fun i : ℕ => b.lowest_floor_level + sh * (i : ℚ)

/-- `Block.ceiling_heights`: `[lowest_floor_level + storey_height *
(i+1) for i in range(num_stories)]`. -/
def Block.ceiling_heights (b : Block) : Option (List ℚ) :=
  b.storey_height.map fun sh =>
    (List.range b.num_stories).map fun i : ℕ => b.lowest_floor_level + sh * ((i : ℚ) + 1)

/-- `make_wall(edge, fh, ch)`: the wall rectangle `[p1+(0,0,ch),
p1+(0,0,fh), p2+(0,0,fh), p2+(0,0,ch)]`. -/
def make_wall (edge : Edge) (fh ch : ℚ) : Polygon3D :=
  ⟨[edge.p1.add ⟨0, 0, ch⟩,
    edge.p1.add ⟨0, 0, fh⟩,
    edge.p2.add ⟨0, 0, fh⟩,
    edge.p2.add ⟨0, 0, ch⟩]⟩

/-- `Block.walls`: one list of walls per storey, one wall per footprint
edge, at that storey's floor and ceiling heights. -/
def Block.walls (b : Block) : Option (List (List Polygon3D)) := do
  let fhs ← b.floor_heights
  let chs ← b.ceiling_heights
  return (fhs.zip chs).map fun fc =>
    b.footprint.edges.map fun edge => make_wall edge fc.1 fc.2

/-- `Block.floors`: per storey, the one-element list holding the
orientation-inverted footprint translated to the floor height. -/
def Block.floors (b : Block) : Option (List SurfEntry) :=
  b.floor_heights.map fun fhs =>
    fhs.map fun fh =>
      SurfEntry.objs [PyObj.poly (b.footprint.invert_orientation.translate ⟨0, 0, fh⟩)]

/-- `Block.ceilings`: the footprint translated to each ceiling height
except the last (`ceiling_heights[:-1]`), then the appended string
placeholder `''` for the topmost storey. -/
def Block.ceilings (b : Block) : Option (List SurfEntry) :=
  b.ceiling_heights.map fun chs =>
    (chs.dropLast.map fun ch =>
      SurfEntry.objs [PyObj.poly (b.footprint.translate ⟨0, 0, ch⟩)])
    ++ [SurfEntry.str ""]

/-- `Block.roofs`: the one-element list `[None]` for every storey except
the last, then the footprint translated to the total height. -/
def Block.roofs (b : Block) : Option (List SurfEntry) :=
  b.ceiling_heights.map fun chs =>
    (chs.dropLast.map fun _ => SurfEntry.objs [PyObj.pynone])
    ++ [SurfEntry.objs [PyObj.poly (b.footprint.translate ⟨0, 0, b.height⟩)]]

/-- One element of the list returned by `Block.stories`: the per-storey
dict with its signed storey number and four surface groups. -/
structure Storey where
  storey_no : ℤ
  floors : SurfEntry
  ceilings : SurfEntry
  walls : List Polygon3D
  roofs : SurfEntry
deriving DecidableEq

/-- Python `zip` over four lists, truncating at the shortest. -/
def zip4 : List α → List β → List γ → List δ → List (α × β × γ × δ)
  | a :: as, b :: bs, c :: cs, d :: ds => (a, b, c, d) :: zip4 as bs cs ds
  | _, _, _, _ => []

/-- The accumulation loop in `Block.stories`: builds one `Storey` per
zipped tuple, incrementing the storey number from the given start. -/
def buildStoreys : ℤ → List (SurfEntry × SurfEntry × List Polygon3D × SurfEntry) → List Storey
  | _, [] => []
  | n, t :: rest => ⟨n, t.1, t.2.1, t.2.2.1, t.2.2.2⟩ :: buildStoreys (n + 1) rest

/-- `Block.stories`: zips floors, ceilings, walls and roofs into
per-storey records, numbering from `-num_below_ground_stories` (or 0 when
there are no below-ground storeys). -/
def Block.stories (b : Block) : Option (List Storey) := do
  let fs ← b.floors
  let cs ← b.ceilings
  let ws ← b.walls
  let rs ← b.roofs
  let start : ℤ :=
    if b.num_below_ground_stories ≠ 0 then -(b.num_below_ground_stories : ℤ) else 0
  return buildStoreys start (zip4 fs cs ws rs)

/-- The dict returned by `Block.surfaces`. -/
structure Surfaces where
  walls : List (List Polygon3D)
  ceilings : List SurfEntry
  roofs : List SurfEntry
  floors : List SurfEntry
deriving DecidableEq

/-- `Block.surfaces`: the four surface groups of the whole block. -/
def Block.surfaces (b : Block) : Option Surfaces := do
  let w ← b.walls
  let c ← b.ceilings
  let r ← b.roofs
  let f ← b.floors
  return ⟨w, c, r, f⟩

/-- The surfaces dict handed to the `Zone` constructor (one storey's
surface groups, as found in a `Block.stories` element). -/
structure StoreySurfaces where
  walls : List Polygon3D
  floors : SurfEntry
  roofs : SurfEntry
  ceilings : SurfEntry
deriving DecidableEq

/-- The four surface groups of a `Storey` element, in the shape the
`Zone` constructor reads (it accesses only these four keys). -/
def Storey.surfaceDict (st : Storey) : StoreySurfaces :=
  ⟨st.walls, st.floors, st.roofs, st.ceilings⟩

/-- The state of a `Zone` instance after `__init__` has run. -/
structure Zone where
  name : String
  walls : List Polygon3D
  floors : SurfEntry
  roofs : SurfEntry
  ceilings : SurfEntry
deriving DecidableEq

/-- `Zone.__init__`: keeps only walls with `area > 0` (positive area is
equivalent to positive `areaSq4`), passes the other groups through. -/
def mkZone (name : String) (surfaces : StoreySurfaces) : Zone :=
  { name := name
    walls := surfaces.walls.filter fun s => decide (0 < s.areaSq4)
    floors := surfaces.floors
    roofs := surfaces.roofs
    ceilings := surfaces.ceilings }

/-! ### Shared helper lemmas -/

theorem getD_map_range {α : Type _} (f : ℕ → α) (d : α) {n i : ℕ} (h : i < n) :
    ((List.range n).map f).getD i d = f i := by
  rw [List.getD_eq_getElem?_getD, List.getElem?_map, List.getElem?_range h]
  rfl

theorem getD_map_of_lt {α β : Type _} (f : α → β) (l : List α) (d : β) (d₀ : α)
    {j : ℕ} (hj : j < l.length) : (l.map f).getD j d = f (l.getD j d₀) := by
  rw [List.getD_eq_getElem?_getD, List.getD_eq_getElem?_getD, List.getElem?_map,
    List.getElem?_eq_getElem hj]
  rfl

theorem sub_cast_ne_zero {N B : ℕ} (h : ((N : ℤ) - (B : ℤ)) ≠ 0) :
    ((N : ℚ) - (B : ℚ)) ≠ 0 := by
  intro hq
  apply h
  have : (((N : ℤ) - (B : ℤ) : ℤ) : ℚ) = 0 := by push_cast; linarith
  exact_mod_cast this

theorem storey_height_eq (b : Block)
    (h : ((b.num_stories : ℤ) - (b.num_below_ground_stories : ℤ)) ≠ 0) :
    b.storey_height
      = some (b.height / ((b.num_stories : ℚ) - (b.num_below_ground_stories : ℚ))) := by
  rw [Block.storey_height, if_neg h]
  norm_cast

/-- The elevation contract for a block `b`: both elevation sequences are
returned, each with one entry per storey, and entry `i` follows the affine
formulas `L + S·i` and `L + S·(i+1)` with `S = height/(N−B)`; consequently
each storey, basements included, has height exactly `S`. -/
def elevationFormulas (b : Block) : Prop :=
  ∃ fl cl : List ℚ,
    b.floor_heights = some fl ∧ b.ceiling_heights = some cl ∧
    fl.length = b.num_stories ∧ cl.length = b.num_stories ∧
    ∀ i : ℕ, i < b.num_stories →
      fl.getD i 0 = b.lowest_floor_level
          + b.height / ((b.num_stories : ℚ) - (b.num_below_ground_stories : ℚ)) * i ∧
      cl.getD i 0 = b.lowest_floor_level
          + b.height / ((b.num_stories : ℚ) - (b.num_below_ground_stories : ℚ)) * (i + 1) ∧
      cl.getD i 0 - fl.getD i 0
        = b.height / ((b.num_stories : ℚ) - (b.num_below_ground_stories : ℚ))

/-- C1: for every `Block` with `0 ≤ B < N`, `floor_heights` and
`ceiling_heights` each return a list of length `N` with
`floor_heights[i] = L + S·i` and `ceiling_heights[i] = L + S·(i+1)` where
`L = -(B·G)` and `S = H/(N−B)`; hence every storey, basements included,
has height `H/(N−B)` (the below-ground storey height `G` only shifts the
starting level `L`). -/
theorem claim_C1_elevations (b : Block)
    (hB : b.num_below_ground_stories < b.num_stories) :
    elevationFormulas b := by
  have hZ : ((b.num_stories : ℤ) - (b.num_below_ground_stories : ℤ)) ≠ 0 := by
    omega
  set S : ℚ := b.height / ((b.num_stories : ℚ) - (b.num_below_ground_stories : ℚ)) with hS
  refine ⟨(List.range b.num_stories).map fun i : ℕ => b.lowest_floor_level + S * (i : ℚ),
          (List.range b.num_stories).map fun i : ℕ => b.lowest_floor_level + S * ((i : ℚ) + 1),
          ?_, ?_, by simp, by simp, ?_⟩
  · rw [Block.floor_heights, storey_height_eq b hZ, Option.map_some']
  · rw [Block.ceiling_heights, storey_height_eq b hZ, Option.map_some']
  · intro i hi
    rw [getD_map_range _ _ hi, getD_map_range _ _ hi]
    refine ⟨rfl, by ring, by ring⟩

/-- Witness for C1 at the spec's round-trip example: a 10×10 footprint,
height 9, three storeys, none below ground. -/
theorem claim_C1_elevations_witness :
    (⟨"b", [(0,0),(10,0),(10,10),(0,10)], 9, 3, 0, 5/2⟩ : Block).num_below_ground_stories
        < (⟨"b", [(0,0),(10,0),(10,10),(0,10)], 9, 3, 0, 5/2⟩ : Block).num_stories
    ∧ elevationFormulas ⟨"b", [(0,0),(10,0),(10,10),(0,10)], 9, 3, 0, 5/2⟩ :=
  ⟨by decide, claim_C1_elevations _ (by decide)⟩

/-- The uniform storey height `S = H/(N−B)` as a rational value (defined
whenever `N ≠ B`). -/
def storeyHeightVal (b : Block) : ℚ :=
  b.height / ((b.num_stories : ℚ) - (b.num_below_ground_stories : ℚ))

/-- Floor elevation formula `L + S·i`. -/
def floorAt (b : Block) (i : ℕ) : ℚ :=
  b.lowest_floor_level + storeyHeightVal b * (i : ℚ)

/-- Ceiling elevation formula `L + S·(i+1)`. -/
def ceilAt (b : Block) (i : ℕ) : ℚ :=
  b.lowest_floor_level + storeyHeightVal b * ((i : ℚ) + 1)

theorem floor_heights_eq (b : Block)
    (hNB : ((b.num_stories : ℤ) - (b.num_below_ground_stories : ℤ)) ≠ 0) :
    b.floor_heights = some ((List.range b.num_stories).map fun i : ℕ => floorAt b i) := by
  rw [Block.floor_heights, storey_height_eq b hNB, Option.map_some']
  rfl

theorem ceiling_heights_eq (b : Block)
    (hNB : ((b.num_stories : ℤ) - (b.num_below_ground_stories : ℤ)) ≠ 0) :
    b.ceiling_heights = some ((List.range b.num_stories).map fun i : ℕ => ceilAt b i) := by
  rw [Block.ceiling_heights, storey_height_eq b hNB, Option.map_some']
  rfl

theorem ceiling_heights_concat (b : Block) (m : ℕ) (hm : b.num_stories = m + 1)
    (hNB : ((b.num_stories : ℤ) - (b.num_below_ground_stories : ℤ)) ≠ 0) :
    b.ceiling_heights
      = some (((List.range m).map fun i : ℕ => ceilAt b i) ++ [ceilAt b m]) := by
  rw [ceiling_heights_eq b hNB, hm, List.range_succ, List.map_append]
  rfl

theorem ceilings_concat (b : Block) (m : ℕ) (hm : b.num_stories = m + 1)
    (hNB : ((b.num_stories : ℤ) - (b.num_below_ground_stories : ℤ)) ≠ 0) :
    b.ceilings
      = some (((List.range m).map fun i : ℕ =>
          SurfEntry.objs [PyObj.poly (b.footprint.translate ⟨0, 0, ceilAt b i⟩)])
        ++ [SurfEntry.str ""]) := by
  rw [Block.ceilings, ceiling_heights_concat b m hm hNB, Option.map_some']
  rw [List.dropLast_concat, List.map_map]
  rfl

theorem roofs_concat (b : Block) (m : ℕ) (hm : b.num_stories = m + 1)
    (hNB : ((b.num_stories : ℤ) - (b.num_below_ground_stories : ℤ)) ≠ 0) :
    b.roofs
      = some (((List.range m).map fun _ : ℕ => SurfEntry.objs [PyObj.pynone])
        ++ [SurfEntry.objs [PyObj.poly (b.footprint.translate ⟨0, 0, b.height⟩)]]) := by
  rw [Block.roofs, ceiling_heights_concat b m hm hNB, Option.map_some']
  rw [List.dropLast_concat, List.map_map]
  rfl

/-- C3 counterexample: a block with `N = 1`, `B = 2` (so `N − B < 0`).
No error is raised at construction or at property access: a negative
storey height `−3` is returned, the single storey's floor is at `−5` and
its ceiling at `−8` — negative-height geometry, contradicting the claim
that `N − B < 0` deterministically raises a configuration error. -/
theorem claim_C3_counterexample :
    (⟨"b", [(0,0),(1,0),(1,1)], 3, 1, 2, 5/2⟩ : Block).storey_height = some (-3)
    ∧ (⟨"b", [(0,0),(1,0),(1,1)], 3, 1, 2, 5/2⟩ : Block).floor_heights = some [-5]
    ∧ (⟨"b", [(0,0),(1,0),(1,1)], 3, 1, 2, 5/2⟩ : Block).ceiling_heights = some [-8] := by
  refine ⟨?_, ?_, ?_⟩ <;>
    norm_num [Block.storey_height, Block.floor_heights, Block.ceiling_heights,
      Block.lowest_floor_level, List.range_succ]

/-- C3 amended: construction never validates the storey counts.  When
`N − B = 0` every elevation-dependent property access fails
deterministically with a division error (modelled `none`); when
`N − B < 0` no error is raised — property access succeeds and, for a
positive height, returns a negative storey height. -/
theorem claim_C3_divisor_behaviour (b : Block) :
    (((b.num_stories : ℤ) = (b.num_below_ground_stories : ℤ)) →
      b.storey_height = none ∧ b.floor_heights = none ∧ b.ceiling_heights = none
      ∧ b.walls = none ∧ b.floors = none ∧ b.ceilings = none ∧ b.roofs = none
      ∧ b.stories = none ∧ b.surfaces = none)
    ∧ (((b.num_stories : ℤ) < (b.num_below_ground_stories : ℤ)) → 0 < b.height →
      ∃ S : ℚ, b.storey_height = some S ∧ S < 0)
    ∧ (∀ (nm : String) (c : ℚ × ℚ) (rest : List (ℚ × ℚ)) (h : ℚ) (ns bs : ℕ) (bh : ℚ),
      (mkBlock nm (c :: rest) h ns bs bh).isSome) := by
  refine ⟨?_, ?_, ?_⟩
  · intro hz
    have hsh : b.storey_height = none := by
      rw [Block.storey_height, if_pos (sub_eq_zero.mpr hz)]
    refine ⟨hsh, ?_, ?_, ?_, ?_, ?_, ?_, ?_, ?_⟩ <;>
      simp [Block.floor_heights, Block.ceiling_heights, Block.walls, Block.floors,
        Block.ceilings, Block.roofs, Block.stories, Block.surfaces, hsh]
  · intro hlt hpos
    have hd : ((b.num_stories : ℤ) - (b.num_below_ground_stories : ℤ)) ≠ 0 := by omega
    refine ⟨_, storey_height_eq b hd, ?_⟩
    apply div_neg_of_pos_of_neg hpos
    have : ((b.num_stories : ℚ)) < ((b.num_below_ground_stories : ℚ)) := by
      exact_mod_cast hlt
    linarith
  · intro nm c rest h ns bs bh
    obtain ⟨x, hx⟩ : ∃ x, (c :: rest).getLast? = some x :=
      ⟨(c :: rest).getLast (by simp), List.getLast?_eq_getLast _ _⟩
    simp [mkBlock, hx]

/-- Witness for C3 (amended): with `N = B = 1` every property access
fails; with `N = 1 < B = 2` and height 3 the storey height is returned
and is negative. -/
theorem claim_C3_divisor_behaviour_witness :
    ((⟨"b", [(0,0),(1,0),(1,1)], 3, 1, 1, 5/2⟩ : Block).storey_height = none
      ∧ (⟨"b", [(0,0),(1,0),(1,1)], 3, 1, 1, 5/2⟩ : Block).surfaces = none)
    ∧ (∃ S : ℚ,
        (⟨"b", [(0,0),(1,0),(1,1)], 3, 1, 2, 5/2⟩ : Block).storey_height = some S ∧ S < 0) :=
  ⟨⟨((claim_C3_divisor_behaviour _).1 (by decide)).1,
    ((claim_C3_divisor_behaviour _).1 (by decide)).2.2.2.2.2.2.2.2⟩,
   (claim_C3_divisor_behaviour _).2.1 (by decide) (by decide)⟩

/-- C2 counterexample: height 6, three storeys, one below ground,
below-ground storey height 5/2.  The storey height is 3 and the ceiling
elevations are [1/2, 7/2, 13/2]: the topmost storey's walls reach 13/2,
yet the roof lies at the total height 6 ≠ 13/2, so
`H = lowest_floor_level + storey_height · N` fails and the envelope is
not watertight for this valid input. -/
theorem claim_C2_counterexample :
    (⟨"b", [(0,0),(1,0),(1,1)], 6, 3, 1, 5/2⟩ : Block).storey_height = some 3
    ∧ (⟨"b", [(0,0),(1,0),(1,1)], 6, 3, 1, 5/2⟩ : Block).ceiling_heights
        = some [1/2, 7/2, 13/2]
    ∧ (⟨"b", [(0,0),(1,0),(1,1)], 6, 3, 1, 5/2⟩ : Block).lowest_floor_level
        + 3 * ((⟨"b", [(0,0),(1,0),(1,1)], 6, 3, 1, 5/2⟩ : Block).num_stories : ℚ)
        ≠ (⟨"b", [(0,0),(1,0),(1,1)], 6, 3, 1, 5/2⟩ : Block).height := by
  refine ⟨?_, ?_, ?_⟩ <;>
    norm_num [Block.storey_height, Block.ceiling_heights, Block.lowest_floor_level,
      List.range_succ]

/-- C2 amended: the roof polygon always lies at the total height `H`,
while the topmost storey's ceiling elevation equals `H + B·(S − G)` with
`S = H/(N−B)` and `G` the below-ground storey height.  The two planes
coincide — the walls meet the roof with no gap — exactly when `B = 0` or
`G = S`; in particular the claim holds for every block without basement
storeys. -/
theorem claim_C2_roof_meets_walls (b : Block)
    (hB : b.num_below_ground_stories < b.num_stories) :
    ∃ chs rs, b.ceiling_heights = some chs ∧ b.roofs = some rs ∧
      rs.getLast? = some (.objs [.poly (b.footprint.translate ⟨0, 0, b.height⟩)]) ∧
      chs.getLast? = some (b.height + (b.num_below_ground_stories : ℚ)
        * (storeyHeightVal b - b.below_ground_storey_height)) ∧
      (b.num_below_ground_stories = 0 → chs.getLast? = some b.height) ∧
      (b.below_ground_storey_height = storeyHeightVal b →
        chs.getLast? = some b.height) := by
  have hNB : ((b.num_stories : ℤ) - (b.num_below_ground_stories : ℤ)) ≠ 0 := by omega
  obtain ⟨m, hm⟩ : ∃ m, b.num_stories = m + 1 := ⟨b.num_stories - 1, by omega⟩
  have hq : ((b.num_stories : ℚ) - (b.num_below_ground_stories : ℚ)) ≠ 0 :=
    sub_cast_ne_zero hNB
  have hH : storeyHeightVal b
      * ((b.num_stories : ℚ) - (b.num_below_ground_stories : ℚ)) = b.height :=
    div_mul_cancel₀ b.height hq
  have hcast : (b.num_stories : ℚ) = (m : ℚ) + 1 := by
    rw [hm]; push_cast; ring
  rw [hcast] at hH
  have hlast : ceilAt b m = b.height + (b.num_below_ground_stories : ℚ)
      * (storeyHeightVal b - b.below_ground_storey_height) := by
    rw [ceilAt, Block.lowest_floor_level]
    linear_combination hH
  refine ⟨_, _, ceiling_heights_concat b m hm hNB, roofs_concat b m hm hNB,
    List.getLast?_concat _, ?_, ?_, ?_⟩
  · rw [List.getLast?_concat, hlast]
  · intro h0
    rw [List.getLast?_concat, hlast, h0]
    norm_num
  · intro hG
    rw [List.getLast?_concat, hlast, hG]
    rw [sub_self, mul_zero, add_zero]

/-- Witness for C2 (amended): height 6, three storeys, one below ground,
below-ground storey height 3 — here `G = S = 3`, so the claimed equality
holds at the instance. -/
theorem claim_C2_roof_meets_walls_witness :
    (⟨"w", [(0,0),(2,0),(2,2),(0,2)], 6, 3, 1, 3⟩ : Block).num_below_ground_stories
        < (⟨"w", [(0,0),(2,0),(2,2),(0,2)], 6, 3, 1, 3⟩ : Block).num_stories
    ∧ (∃ chs rs,
        (⟨"w", [(0,0),(2,0),(2,2),(0,2)], 6, 3, 1, 3⟩ : Block).ceiling_heights = some chs
        ∧ (⟨"w", [(0,0),(2,0),(2,2),(0,2)], 6, 3, 1, 3⟩ : Block).roofs = some rs
        ∧ rs.getLast? = some (.objs [.poly
            ((⟨"w", [(0,0),(2,0),(2,2),(0,2)], 6, 3, 1, 3⟩ : Block).footprint.translate
              ⟨0, 0, (⟨"w", [(0,0),(2,0),(2,2),(0,2)], 6, 3, 1, 3⟩ : Block).height⟩)])
        ∧ chs.getLast? = some ((⟨"w", [(0,0),(2,0),(2,2),(0,2)], 6, 3, 1, 3⟩ : Block).height
            + ((⟨"w", [(0,0),(2,0),(2,2),(0,2)], 6, 3, 1, 3⟩ : Block).num_below_ground_stories : ℚ)
            * (storeyHeightVal ⟨"w", [(0,0),(2,0),(2,2),(0,2)], 6, 3, 1, 3⟩
                - (⟨"w", [(0,0),(2,0),(2,2),(0,2)], 6, 3, 1, 3⟩ : Block).below_ground_storey_height))
        ∧ ((⟨"w", [(0,0),(2,0),(2,2),(0,2)], 6, 3, 1, 3⟩ : Block).num_below_ground_stories = 0 →
            chs.getLast? = some (⟨"w", [(0,0),(2,0),(2,2),(0,2)], 6, 3, 1, 3⟩ : Block).height)
        ∧ ((⟨"w", [(0,0),(2,0),(2,2),(0,2)], 6, 3, 1, 3⟩ : Block).below_ground_storey_height
              = storeyHeightVal ⟨"w", [(0,0),(2,0),(2,2),(0,2)], 6, 3, 1, 3⟩ →
            chs.getLast? = some (⟨"w", [(0,0),(2,0),(2,2),(0,2)], 6, 3, 1, 3⟩ : Block).height)) :=
  ⟨by decide, claim_C2_roof_meets_walls _ (by decide)⟩

theorem edges_length (p : Polygon3D) : p.edges.length = p.vertices.length := by
  simp [Polygon3D.edges]

theorem footprint_vertices_length (b : Block) :
    b.footprint.vertices.length = b.coordinates.length := by
  simp [Block.footprint]

theorem footprint_vertices_getD (b : Block) {j : ℕ} (hj : j < b.coordinates.length) :
    b.footprint.vertices.getD j default
      = ⟨(b.coordinates.getD j (0,0)).1, (b.coordinates.getD j (0,0)).2, 0⟩ := by
  rw [Block.footprint]
  exact getD_map_of_lt _ _ _ _ hj

theorem footprint_edges_getD (b : Block) {j : ℕ} (hj : j < b.coordinates.length) :
    b.footprint.edges.getD j ⟨default, default⟩
      = ⟨⟨(b.coordinates.getD j (0,0)).1, (b.coordinates.getD j (0,0)).2, 0⟩,
         ⟨(b.coordinates.getD ((j + 1) % b.coordinates.length) (0,0)).1,
          (b.coordinates.getD ((j + 1) % b.coordinates.length) (0,0)).2, 0⟩⟩ := by
  have hlen : b.footprint.vertices.length = b.coordinates.length :=
    footprint_vertices_length b
  have hj' : j < b.footprint.vertices.length := by rw [hlen]; exact hj
  have hmod : (j + 1) % b.coordinates.length < b.coordinates.length :=
    Nat.mod_lt _ (Nat.pos_of_ne_zero (by omega))
  rw [Polygon3D.edges, getD_map_range _ _ hj', hlen,
    footprint_vertices_getD b hj, footprint_vertices_getD b hmod]

theorem walls_eq (b : Block)
    (hNB : ((b.num_stories : ℤ) - (b.num_below_ground_stories : ℤ)) ≠ 0) :
    b.walls = some ((List.range b.num_stories).map fun i : ℕ =>
      b.footprint.edges.map fun e => make_wall e (floorAt b i) (ceilAt b i)) := by
  rw [Block.walls, floor_heights_eq b hNB, ceiling_heights_eq b hNB]
  show some ((((List.range b.num_stories).map fun i : ℕ => floorAt b i).zip
      ((List.range b.num_stories).map fun i : ℕ => ceilAt b i)).map fun fc =>
      b.footprint.edges.map fun edge => make_wall edge fc.1 fc.2) = _
  rw [List.zip_map', List.map_map]
  rfl

/-- The per-storey wall contract: the walls property succeeds, has one
inner list per storey, each inner list has exactly one wall per stored
footprint vertex, and wall `j` of storey `i` is the quadrilateral
`[(p1,c), (p1,f), (p2,f), (p2,c)]` for the edge from vertex `j` to vertex
`(j+1) mod n` and that storey's floor and ceiling elevations. -/
def wallSpec (b : Block) : Prop :=
  ∃ ws fhs chs,
    b.walls = some ws ∧ b.floor_heights = some fhs ∧ b.ceiling_heights = some chs ∧
    ws.length = b.num_stories ∧
    ∀ i : ℕ, i < b.num_stories →
      (ws.getD i []).length = b.coordinates.length ∧
      ∀ j : ℕ, j < b.coordinates.length →
        (ws.getD i []).getD j default =
          ⟨[⟨(b.coordinates.getD j (0,0)).1, (b.coordinates.getD j (0,0)).2, chs.getD i 0⟩,
            ⟨(b.coordinates.getD j (0,0)).1, (b.coordinates.getD j (0,0)).2, fhs.getD i 0⟩,
            ⟨(b.coordinates.getD ((j + 1) % b.coordinates.length) (0,0)).1,
             (b.coordinates.getD ((j + 1) % b.coordinates.length) (0,0)).2, fhs.getD i 0⟩,
            ⟨(b.coordinates.getD ((j + 1) % b.coordinates.length) (0,0)).1,
             (b.coordinates.getD ((j + 1) % b.coordinates.length) (0,0)).2, chs.getD i 0⟩]⟩

/-- C4: for every block with `B < N`, every storey emits exactly one wall
per footprint edge — the wall count per storey equals the number of
stored (closure-deduplicated) footprint vertices — and each wall's
vertices are, in order, `(p1 at ceiling c)`, `(p1 at floor f)`,
`(p2 at floor f)`, `(p2 at ceiling c)` for its edge `(p1, p2)`. -/
theorem claim_C4_walls (b : Block)
    (hB : b.num_below_ground_stories < b.num_stories) :
    wallSpec b := by
  have hNB : ((b.num_stories : ℤ) - (b.num_below_ground_stories : ℤ)) ≠ 0 := by omega
  refine ⟨_, _, _, walls_eq b hNB, floor_heights_eq b hNB, ceiling_heights_eq b hNB,
    by simp, ?_⟩
  intro i hi
  rw [getD_map_range _ _ hi]
  constructor
  · rw [List.length_map, edges_length, footprint_vertices_length]
  · intro j hj
    have hjE : j < (b.footprint.edges).length := by
      rw [edges_length, footprint_vertices_length]; exact hj
    rw [getD_map_of_lt _ _ _ ⟨default, default⟩ hjE, footprint_edges_getD b hj,
      getD_map_range _ _ hi, getD_map_range _ _ hi]
    simp [make_wall, Vector3D.add]

/-- Witness for C4 at a square footprint, height 9, three storeys. -/
theorem claim_C4_walls_witness :
    (⟨"b", [(0,0),(10,0),(10,10),(0,10)], 9, 3, 0, 5/2⟩ : Block).num_below_ground_stories
        < (⟨"b", [(0,0),(10,0),(10,10),(0,10)], 9, 3, 0, 5/2⟩ : Block).num_stories
    ∧ wallSpec ⟨"b", [(0,0),(10,0),(10,10),(0,10)], 9, 3, 0, 5/2⟩ :=
  ⟨by decide, claim_C4_walls _ (by decide)⟩

theorem polygon_eq_of_vertices {p q : Polygon3D} (h : p.vertices = q.vertices) : p = q := by
  cases p
  cases q
  cases h
  rfl

theorem coords_lift_add (b : Block) (h : ℚ) :
    (b.coordinates.map fun v => (⟨v.1, v.2, 0⟩ : Vector3D)).map (·.add ⟨0, 0, h⟩)
      = b.coordinates.map fun v => ⟨v.1, v.2, h⟩ := by
  rw [List.map_map]
  apply List.map_congr_left
  intro v hv
  simp [Vector3D.add, Function.comp]

theorem footprint_translate_vertices (b : Block) (h : ℚ) :
    (b.footprint.translate ⟨0, 0, h⟩).vertices
      = b.coordinates.map fun v => ⟨v.1, v.2, h⟩ :=
  coords_lift_add b h

theorem footprint_invert_translate_vertices (b : Block) (h : ℚ) :
    (b.footprint.invert_orientation.translate ⟨0, 0, h⟩).vertices
      = (b.coordinates.map fun v => ⟨v.1, v.2, h⟩).reverse := by
  show ((b.coordinates.map fun v => (⟨v.1, v.2, 0⟩ : Vector3D)).reverse).map (·.add ⟨0, 0, h⟩)
      = _
  rw [List.map_reverse, coords_lift_add]

theorem floors_eq (b : Block)
    (hNB : ((b.num_stories : ℤ) - (b.num_below_ground_stories : ℤ)) ≠ 0) :
    b.floors = some ((List.range b.num_stories).map fun i : ℕ =>
      SurfEntry.objs [PyObj.poly
        (b.footprint.invert_orientation.translate ⟨0, 0, floorAt b i⟩)]) := by
  rw [Block.floors, floor_heights_eq b hNB, Option.map_some', List.map_map]
  rfl

theorem getD_append_left {α : Type _} (xs ys : List α) (d : α) {i : ℕ}
    (h : i < xs.length) : (xs ++ ys).getD i d = xs.getD i d := by
  rw [List.getD_eq_getElem?_getD, List.getD_eq_getElem?_getD, List.getElem?_append_left h]

theorem getD_concat_length {α : Type _} (xs : List α) (y d : α) :
    (xs ++ [y]).getD xs.length d = y := by
  rw [List.getD_eq_getElem?_getD, List.getElem?_concat_length]
  rfl

theorem getD_concat_of_length {α : Type _} (xs : List α) (y d : α) {i : ℕ}
    (h : i = xs.length) : (xs ++ [y]).getD i d = y := by
  subst h
  exact getD_concat_length xs y d

/-- The winding contract: every floor polygon is the footprint with
reversed vertex order raised to that storey's floor elevation; every
non-topmost ceiling polygon and the roof polygon keep the footprint's
original vertex order, raised to the ceiling elevation and to the total
height respectively. -/
def windingSpec (b : Block) : Prop :=
  ∃ fs cs rs fhs chs,
    b.floors = some fs ∧ b.ceilings = some cs ∧ b.roofs = some rs ∧
    b.floor_heights = some fhs ∧ b.ceiling_heights = some chs ∧
    (∀ i : ℕ, i < b.num_stories →
      fs.getD i default = .objs [.poly
        ⟨(b.coordinates.map fun v => ⟨v.1, v.2, fhs.getD i 0⟩).reverse⟩]) ∧
    (∀ i : ℕ, i + 1 < b.num_stories →
      cs.getD i default = .objs [.poly
        ⟨b.coordinates.map fun v => ⟨v.1, v.2, chs.getD i 0⟩⟩]) ∧
    rs.getLast? = some (.objs [.poly ⟨b.coordinates.map fun v => ⟨v.1, v.2, b.height⟩⟩])

/-- C5: floors are the footprint with inverted (reversed) winding
translated to the floor elevation; ceilings and the roof retain the
original winding, translated to the ceiling elevation and total height. -/
theorem claim_C5_windings (b : Block)
    (hB : b.num_below_ground_stories < b.num_stories) :
    windingSpec b := by
  have hNB : ((b.num_stories : ℤ) - (b.num_below_ground_stories : ℤ)) ≠ 0 := by omega
  obtain ⟨m, hm⟩ : ∃ m, b.num_stories = m + 1 := ⟨b.num_stories - 1, by omega⟩
  refine ⟨_, _, _, _, _, floors_eq b hNB, ceilings_concat b m hm hNB,
    roofs_concat b m hm hNB, floor_heights_eq b hNB, ceiling_heights_eq b hNB,
    ?_, ?_, ?_⟩
  · intro i hi
    rw [getD_map_range _ _ hi, getD_map_range _ _ hi,
      polygon_eq_of_vertices (footprint_invert_translate_vertices b (floorAt b i))]
    rfl
  · intro i hi
    have him : i < m := by omega
    have hiN : i < b.num_stories := by omega
    rw [getD_append_left _ _ _ (by simpa using him), getD_map_range _ _ him,
      getD_map_range _ _ hiN,
      polygon_eq_of_vertices (footprint_translate_vertices b (ceilAt b i))]
  · rw [List.getLast?_concat,
      polygon_eq_of_vertices (footprint_translate_vertices b b.height)]

/-- Witness for C5 at a triangular footprint with one basement storey. -/
theorem claim_C5_windings_witness :
    (⟨"w", [(0,0),(4,0),(4,3)], 6, 2, 1, 2⟩ : Block).num_below_ground_stories
        < (⟨"w", [(0,0),(4,0),(4,3)], 6, 2, 1, 2⟩ : Block).num_stories
    ∧ windingSpec ⟨"w", [(0,0),(4,0),(4,3)], 6, 2, 1, 2⟩ :=
  ⟨by decide, claim_C5_windings _ (by decide)⟩

/-- The topmost-storey contract: ceilings and roofs both have exactly one
entry per storey; every storey below the top has a real ceiling (the
footprint at its ceiling elevation) and an empty roof placeholder; the
topmost storey has an empty ceiling placeholder and the single real roof
(the footprint at total height). -/
def topmostSpec (b : Block) : Prop :=
  ∃ cs rs chs,
    b.ceilings = some cs ∧ b.roofs = some rs ∧ b.ceiling_heights = some chs ∧
    cs.length = b.num_stories ∧ rs.length = b.num_stories ∧
    (∀ i : ℕ, i + 1 < b.num_stories →
      cs.getD i default
          = .objs [.poly (b.footprint.translate ⟨0, 0, chs.getD i 0⟩)] ∧
      rs.getD i default = .objs [.pynone]) ∧
    cs.getD (b.num_stories - 1) default = .str "" ∧
    rs.getD (b.num_stories - 1) default
      = .objs [.poly (b.footprint.translate ⟨0, 0, b.height⟩)]

/-- C6: exactly the topmost storey has the non-empty roof entry and the
empty ceiling placeholder; every other storey has a non-empty ceiling and
the empty roof placeholder; both lists have exactly `N` entries. -/
theorem claim_C6_topmost (b : Block) (hN : 1 ≤ b.num_stories)
    (hNB : ((b.num_stories : ℤ) - (b.num_below_ground_stories : ℤ)) ≠ 0) :
    topmostSpec b := by
  obtain ⟨m, hm⟩ : ∃ m, b.num_stories = m + 1 := ⟨b.num_stories - 1, by omega⟩
  have hml : ((List.range m).map fun i : ℕ =>
      SurfEntry.objs [PyObj.poly (b.footprint.translate ⟨0, 0, ceilAt b i⟩)]).length = m := by
    simp
  have hrl : ((List.range m).map fun _ : ℕ => SurfEntry.objs [PyObj.pynone]).length = m := by
    simp
  refine ⟨_, _, _, ceilings_concat b m hm hNB, roofs_concat b m hm hNB,
    ceiling_heights_eq b hNB, by simp [hm], by simp [hm], ?_, ?_, ?_⟩
  · intro i hi
    have him : i < m := by omega
    have hiN : i < b.num_stories := by omega
    constructor
    · rw [getD_append_left _ _ _ (by simpa using him), getD_map_range _ _ him,
        getD_map_range _ _ hiN]
    · rw [getD_append_left _ _ _ (by simpa using him), getD_map_range _ _ him]
  · have hi : b.num_stories - 1 = m := by omega
    rw [hi]
    exact getD_concat_of_length _ _ _ hml.symm
  · have hi : b.num_stories - 1 = m := by omega
    rw [hi]
    exact getD_concat_of_length _ _ _ hrl.symm

/-- Witness for C6 at a square footprint with two storeys, one below
ground. -/
theorem claim_C6_topmost_witness :
    1 ≤ (⟨"w", [(0,0),(3,0),(3,3),(0,3)], 5, 2, 1, 2⟩ : Block).num_stories
    ∧ (((⟨"w", [(0,0),(3,0),(3,3),(0,3)], 5, 2, 1, 2⟩ : Block).num_stories : ℤ)
        - ((⟨"w", [(0,0),(3,0),(3,3),(0,3)], 5, 2, 1, 2⟩ : Block).num_below_ground_stories : ℤ)) ≠ 0
    ∧ topmostSpec ⟨"w", [(0,0),(3,0),(3,3),(0,3)], 5, 2, 1, 2⟩ :=
  ⟨by decide, by decide, claim_C6_topmost _ (by decide) (by decide)⟩

theorem length_filter_add_countP_not {α : Type _} (l : List α) (p : α → Bool) :
    (l.filter p).length + l.countP (fun a => !(p a)) = l.length := by
  induction l with
  | nil => rfl
  | cons a l ih =>
    cases h : p a <;> simp [List.filter_cons, List.countP_cons, h, ← ih] <;> omega

/-- C7: a `Zone` keeps exactly the walls of positive area, in their
original relative order (the kept walls form a sublist), and passes
floors, roofs and ceilings through unchanged; the number of dropped walls
is the number of non-positive-area walls, so when exactly one wall is
degenerate — e.g. from a zero-length footprint edge — the zone has
exactly one fewer wall than the raw storey surfaces. -/
theorem claim_C7_zone_filter (name : String) (s : StoreySurfaces) :
    (mkZone name s).walls.Sublist s.walls
    ∧ (∀ w ∈ (mkZone name s).walls, 0 < w.areaSq4)
    ∧ (∀ w ∈ s.walls, 0 < w.areaSq4 → w ∈ (mkZone name s).walls)
    ∧ (mkZone name s).floors = s.floors
    ∧ (mkZone name s).roofs = s.roofs
    ∧ (mkZone name s).ceilings = s.ceilings
    ∧ (mkZone name s).walls.length
        + (s.walls.countP fun w => !(decide (0 < w.areaSq4))) = s.walls.length
    ∧ ((s.walls.countP fun w => !(decide (0 < w.areaSq4))) = 1 →
        (mkZone name s).walls.length + 1 = s.walls.length) := by
  have hlen : (mkZone name s).walls.length
      + (s.walls.countP fun w => !(decide (0 < w.areaSq4))) = s.walls.length :=
    length_filter_add_countP_not s.walls _
  refine ⟨List.filter_sublist _, ?_, ?_, rfl, rfl, rfl, hlen, ?_⟩
  · intro w hw
    have := (List.mem_filter.mp hw).2
    exact of_decide_eq_true this
  · intro w hw hpos
    exact List.mem_filter.mpr ⟨hw, decide_eq_true hpos⟩
  · intro h1
    rw [← hlen, h1]

/-- Witness for C7: a single-storey block whose footprint repeats the
vertex (1,0), giving one zero-length edge; of the four raw walls exactly
one has zero area and the zone keeps the other three. -/
theorem claim_C7_zone_filter_witness :
    ((((⟨"z", [(0,0),(1,0),(1,0),(0,1)], 1, 1, 0, 5/2⟩ : Block).stories.getD []).headD
        ⟨0, default, default, [], default⟩).surfaceDict.walls.countP
          fun w => !(decide (0 < w.areaSq4))) = 1
    ∧ ((mkZone "z" ((((⟨"z", [(0,0),(1,0),(1,0),(0,1)], 1, 1, 0, 5/2⟩ : Block).stories.getD
          []).headD ⟨0, default, default, [], default⟩).surfaceDict)).walls.length + 1
        = (((((⟨"z", [(0,0),(1,0),(1,0),(0,1)], 1, 1, 0, 5/2⟩ : Block).stories.getD []).headD
          ⟨0, default, default, [], default⟩).surfaceDict).walls.length)) := by
  have h1 : ((((⟨"z", [(0,0),(1,0),(1,0),(0,1)], 1, 1, 0, 5/2⟩ : Block).stories.getD
        []).headD ⟨0, default, default, [], default⟩).surfaceDict.walls.countP
          fun w => !(decide (0 < w.areaSq4))) = 1 := by
    norm_num [Block.stories, Block.walls, Block.floors, Block.ceilings, Block.roofs,
      Block.floor_heights, Block.ceiling_heights, Block.storey_height,
      Block.lowest_floor_level, Block.footprint, Polygon3D.edges, Polygon3D.translate,
      Polygon3D.invert_orientation, make_wall, Vector3D.add, List.range_succ, zip4,
      buildStoreys, Storey.surfaceDict, Polygon3D.areaSq4, Polygon3D.vectorAreaTwice,
      Vector3D.cross, Vector3D.normSq, List.countP_cons, List.getD_cons_zero,
      List.getD_cons_succ]
  exact ⟨h1, (claim_C7_zone_filter "z" _).2.2.2.2.2.2.2 h1⟩

/-- C8 counterexample: the list [(0,0),(1,1),(0,0),(0,0)] has equal first
and last points.  Constructing from it stores [(0,0),(1,1),(0,0)], while
constructing from the same list without the duplicate closing point,
[(0,0),(1,1),(0,0)], pops again (its first and last are also equal) and
stores only [(0,0),(1,1)] — different stored coordinates and different
derived geometry (three walls per storey versus two). -/
theorem claim_C8_counterexample :
    (mkBlock "b" [(0,0),(1,1),(0,0),(0,0)] 3 1 0 (5/2)).map Block.coordinates
      = some [(0,0),(1,1),(0,0)]
    ∧ (mkBlock "b" [(0,0),(1,1),(0,0)] 3 1 0 (5/2)).map Block.coordinates
      = some [(0,0),(1,1)]
    ∧ (mkBlock "b" [(0,0),(1,1),(0,0),(0,0)] 3 1 0 (5/2)).map Block.coordinates
      ≠ (mkBlock "b" [(0,0),(1,1),(0,0)] 3 1 0 (5/2)).map Block.coordinates
    ∧ (mkBlock "b" [(0,0),(1,1),(0,0),(0,0)] 3 1 0 (5/2)).map Block.surfaces
      ≠ (mkBlock "b" [(0,0),(1,1),(0,0)] 3 1 0 (5/2)).map Block.surfaces := by
  refine ⟨?_, ?_, ?_, ?_⟩ <;>
    norm_num [mkBlock, Block.surfaces, Block.walls, Block.floors, Block.ceilings,
      Block.roofs, Block.floor_heights, Block.ceiling_heights, Block.storey_height,
      Block.lowest_floor_level, Block.footprint, Polygon3D.edges, Polygon3D.translate,
      Polygon3D.invert_orientation, make_wall, Vector3D.add, List.range_succ]

/-- C8 amended: closure idempotence holds whenever removing the closing
point leaves a list whose own first and last points differ (true of every
proper simple polygon): for such lists the constructor stores the same
coordinates, and hence yields the same footprint, stories and surfaces,
with and without the explicit closing point.  (When the shortened list
again starts and ends with the same point, a further point is popped and
the results differ, as the counterexample shows.) -/
theorem claim_C8_closure_idempotence (name : String) (c : ℚ × ℚ)
    (rest : List (ℚ × ℚ)) (height : ℚ) (ns bs : ℕ) (bh : ℚ)
    (hrest : rest ≠ [])
    (hlast : (c :: rest).getLast? = some c)
    (hinner : (c :: rest).dropLast.getLast? ≠ some c) :
    mkBlock name (c :: rest) height ns bs bh
      = mkBlock name ((c :: rest).dropLast) height ns bs bh
    ∧ (mkBlock name (c :: rest) height ns bs bh).map Block.coordinates
      = (mkBlock name ((c :: rest).dropLast) height ns bs bh).map Block.coordinates
    ∧ (mkBlock name (c :: rest) height ns bs bh).map Block.footprint
      = (mkBlock name ((c :: rest).dropLast) height ns bs bh).map Block.footprint
    ∧ (mkBlock name (c :: rest) height ns bs bh).map Block.stories
      = (mkBlock name ((c :: rest).dropLast) height ns bs bh).map Block.stories
    ∧ (mkBlock name (c :: rest) height ns bs bh).map Block.surfaces
      = (mkBlock name ((c :: rest).dropLast) height ns bs bh).map Block.surfaces := by
  have hl : (c :: rest).dropLast = c :: rest.dropLast := by
    cases rest with
    | nil => exact absurd rfl hrest
    | cons a as => rfl
  have hne : (c :: rest).dropLast ≠ [] := by
    rw [hl]
    exact List.cons_ne_nil _ _
  obtain ⟨x, hx⟩ : ∃ x, (c :: rest).dropLast.getLast? = some x :=
    ⟨(c :: rest).dropLast.getLast hne, List.getLast?_eq_getLast _ _⟩
  have hcx : c ≠ x := by
    intro hcx
    exact hinner (hcx ▸ hx)
  have hmain : mkBlock name (c :: rest) height ns bs bh
      = mkBlock name ((c :: rest).dropLast) height ns bs bh := by
    have hx' : (c :: rest.dropLast).getLast? = some x := by
      rw [← hl]
      exact hx
    simp [mkBlock, hlast, hx', hl, hcx]
  exact ⟨hmain, by rw [hmain], by rw [hmain], by rw [hmain], by rw [hmain]⟩

/-- Witness for C8 (amended) on the closed square outline
[(0,0),(1,0),(1,1),(0,0)]. -/
theorem claim_C8_closure_idempotence_witness :
    (([(1,0),(1,1),(0,0)] : List (ℚ × ℚ)) ≠ []
      ∧ (((0,0) : ℚ × ℚ) :: [(1,0),(1,1),(0,0)]).getLast? = some ((0,0) : ℚ × ℚ)
      ∧ (((0,0) : ℚ × ℚ) :: [(1,0),(1,1),(0,0)]).dropLast.getLast? ≠ some ((0,0) : ℚ × ℚ))
    ∧ mkBlock "b" (((0,0) : ℚ × ℚ) :: [(1,0),(1,1),(0,0)]) 3 1 0 (5/2)
      = mkBlock "b" ((((0,0) : ℚ × ℚ) :: [(1,0),(1,1),(0,0)]).dropLast) 3 1 0 (5/2) :=
  ⟨⟨by decide, by decide, by decide⟩,
   (claim_C8_closure_idempotence "b" _ _ 3 1 0 (5/2) (by decide) (by decide) (by decide)).1⟩

/-- C9 counterexample: the two-point (degenerate, < 3 distinct points)
footprint [(0,0),(1,1)] is accepted by the constructor — no error — and
surface derivation then succeeds on it as well, so nothing is rejected at
construction. -/
theorem claim_C9_counterexample :
    mkBlock "b" [(0,0),(1,1)] 3 1 0 (5/2)
      = some ⟨"b", [(0,0),(1,1)], 3, 1, 0, 5/2⟩
    ∧ ((mkBlock "b" [(0,0),(1,1)] 3 1 0 (5/2)).bind Block.surfaces).isSome = true := by
  constructor
  · norm_num [mkBlock, Prod.mk.injEq]
  · norm_num [mkBlock, Prod.mk.injEq, Block.surfaces, Block.walls, Block.floors,
      Block.ceilings, Block.roofs, Block.floor_heights, Block.ceiling_heights,
      Block.storey_height, Block.lowest_floor_level, Block.footprint, Polygon3D.edges,
      Polygon3D.translate, Polygon3D.invert_orientation, make_wall, Vector3D.add,
      List.range_succ]

/-- C9 amended: `Block` construction performs no footprint validation.
Every non-empty coordinate list — including lists with fewer than three
distinct points — is accepted and stored; only the empty list fails, and
then with the out-of-range index raised by the closure check (`none`),
not with a dedicated degeneracy error. -/
theorem claim_C9_no_validation :
    (∀ (nm : String) (h : ℚ) (ns bs : ℕ) (bh : ℚ), mkBlock nm [] h ns bs bh = none)
    ∧ (∀ (nm : String) (c : ℚ × ℚ) (rest : List (ℚ × ℚ)) (h : ℚ) (ns bs : ℕ) (bh : ℚ),
        (mkBlock nm (c :: rest) h ns bs bh).isSome = true) := by
  constructor
  · intro nm h ns bs bh
    rfl
  · intro nm c rest h ns bs bh
    obtain ⟨x, hx⟩ : ∃ x, (c :: rest).getLast? = some x :=
      ⟨(c :: rest).getLast (by simp), List.getLast?_eq_getLast _ _⟩
    simp [mkBlock, hx]

theorem zip4_length {α β γ δ : Type _} (as : List α) :
    ∀ (bs : List β) (cs : List γ) (ds : List δ),
    bs.length = as.length → cs.length = as.length → ds.length = as.length →
    (zip4 as bs cs ds).length = as.length := by
  induction as with
  | nil =>
    intro bs cs ds h1 h2 h3
    obtain rfl : bs = [] := List.length_eq_zero.mp (by simpa using h1)
    obtain rfl : cs = [] := List.length_eq_zero.mp (by simpa using h2)
    obtain rfl : ds = [] := List.length_eq_zero.mp (by simpa using h3)
    rfl
  | cons a as ih =>
    intro bs cs ds h1 h2 h3
    cases bs with
    | nil => simp at h1
    | cons b bs =>
      cases cs with
      | nil => simp at h2
      | cons c cs =>
        cases ds with
        | nil => simp at h3
        | cons d ds =>
          simp only [zip4, List.length_cons]
          rw [ih bs cs ds (by simpa using h1) (by simpa using h2) (by simpa using h3)]

theorem zip4_concat {α β γ δ : Type _} (as : List α) :
    ∀ (bs : List β) (cs : List γ) (ds : List δ) (a : α) (b : β) (c : γ) (d : δ),
    bs.length = as.length → cs.length = as.length → ds.length = as.length →
    zip4 (as ++ [a]) (bs ++ [b]) (cs ++ [c]) (ds ++ [d])
      = zip4 as bs cs ds ++ [(a, b, c, d)] := by
  induction as with
  | nil =>
    intro bs cs ds a b c d h1 h2 h3
    obtain rfl : bs = [] := List.length_eq_zero.mp (by simpa using h1)
    obtain rfl : cs = [] := List.length_eq_zero.mp (by simpa using h2)
    obtain rfl : ds = [] := List.length_eq_zero.mp (by simpa using h3)
    rfl
  | cons x as ih =>
    intro bs cs ds a b c d h1 h2 h3
    cases bs with
    | nil => simp at h1
    | cons y bs =>
      cases cs with
      | nil => simp at h2
      | cons z cs =>
        cases ds with
        | nil => simp at h3
        | cons w ds =>
          simp only [List.cons_append, zip4, List.append_eq]
          rw [ih bs cs ds a b c d (by simpa using h1) (by simpa using h2) (by simpa using h3)]

theorem buildStoreys_length (n : ℤ) (l : List (SurfEntry × SurfEntry × List Polygon3D × SurfEntry)) :
    (buildStoreys n l).length = l.length := by
  induction l generalizing n with
  | nil => rfl
  | cons t rest ih => simp [buildStoreys, ih]

theorem buildStoreys_concat (n : ℤ)
    (l : List (SurfEntry × SurfEntry × List Polygon3D × SurfEntry))
    (t : SurfEntry × SurfEntry × List Polygon3D × SurfEntry) :
    buildStoreys n (l ++ [t])
      = buildStoreys n l ++ [⟨n + l.length, t.1, t.2.1, t.2.2.1, t.2.2.2⟩] := by
  induction l generalizing n with
  | nil => simp [buildStoreys]
  | cons z zs ih =>
    show (⟨n, z.1, z.2.1, z.2.2.1, z.2.2.2⟩ : Storey) :: buildStoreys (n + 1) (zs ++ [t]) = _
    have hb : buildStoreys n (z :: zs)
        = (⟨n, z.1, z.2.1, z.2.2.1, z.2.2.2⟩ : Storey) :: buildStoreys (n + 1) zs := rfl
    have hc : (n + 1 : ℤ) + (zs.length : ℤ) = n + ((z :: zs).length : ℤ) := by
      simp only [List.length_cons]
      push_cast
      ring
    rw [ih (n + 1), hb, List.cons_append, hc]

theorem stories_eq (b : Block) (m : ℕ) (hm : b.num_stories = m + 1)
    (hNB : ((b.num_stories : ℤ) - (b.num_below_ground_stories : ℤ)) ≠ 0) :
    b.stories = some (buildStoreys
      (if b.num_below_ground_stories ≠ 0 then -(b.num_below_ground_stories : ℤ) else 0)
      (zip4
        ((List.range b.num_stories).map fun i : ℕ =>
          SurfEntry.objs [PyObj.poly
            (b.footprint.invert_orientation.translate ⟨0, 0, floorAt b i⟩)])
        (((List.range m).map fun i : ℕ =>
          SurfEntry.objs [PyObj.poly (b.footprint.translate ⟨0, 0, ceilAt b i⟩)])
          ++ [SurfEntry.str ""])
        ((List.range b.num_stories).map fun i : ℕ =>
          b.footprint.edges.map fun e => make_wall e (floorAt b i) (ceilAt b i))
        (((List.range m).map fun _ : ℕ => SurfEntry.objs [PyObj.pynone])
          ++ [SurfEntry.objs [PyObj.poly (b.footprint.translate ⟨0, 0, b.height⟩)]]))) := by
  rw [Block.stories, floors_eq b hNB, ceilings_concat b m hm hNB, walls_eq b hNB,
    roofs_concat b m hm hNB]
  rfl

theorem stories_last (b : Block) (m : ℕ) (hm : b.num_stories = m + 1)
    (hNB : ((b.num_stories : ℤ) - (b.num_below_ground_stories : ℤ)) ≠ 0) :
    ∃ sts, b.stories = some sts ∧ sts.length = b.num_stories ∧
      sts.getLast? = some
        ⟨(if b.num_below_ground_stories ≠ 0 then -(b.num_below_ground_stories : ℤ) else 0)
            + (m : ℤ),
         SurfEntry.objs [PyObj.poly
           (b.footprint.invert_orientation.translate ⟨0, 0, floorAt b m⟩)],
         SurfEntry.str "",
         b.footprint.edges.map fun e => make_wall e (floorAt b m) (ceilAt b m),
         SurfEntry.objs [PyObj.poly (b.footprint.translate ⟨0, 0, b.height⟩)]⟩ := by
  have hF : ((List.range b.num_stories).map fun i : ℕ =>
      SurfEntry.objs [PyObj.poly
        (b.footprint.invert_orientation.translate ⟨0, 0, floorAt b i⟩)])
      = ((List.range m).map fun i : ℕ =>
          SurfEntry.objs [PyObj.poly
            (b.footprint.invert_orientation.translate ⟨0, 0, floorAt b i⟩)])
        ++ [SurfEntry.objs [PyObj.poly
            (b.footprint.invert_orientation.translate ⟨0, 0, floorAt b m⟩)]] := by
    rw [hm, List.range_succ, List.map_append]
    rfl
  have hW : ((List.range b.num_stories).map fun i : ℕ =>
      b.footprint.edges.map fun e => make_wall e (floorAt b i) (ceilAt b i))
      = ((List.range m).map fun i : ℕ =>
          b.footprint.edges.map fun e => make_wall e (floorAt b i) (ceilAt b i))
        ++ [b.footprint.edges.map fun e => make_wall e (floorAt b m) (ceilAt b m)] := by
    rw [hm, List.range_succ, List.map_append]
    rfl
  have hzl : (zip4
      ((List.range m).map fun i : ℕ =>
        SurfEntry.objs [PyObj.poly
          (b.footprint.invert_orientation.translate ⟨0, 0, floorAt b i⟩)])
      ((List.range m).map fun i : ℕ =>
        SurfEntry.objs [PyObj.poly (b.footprint.translate ⟨0, 0, ceilAt b i⟩)])
      ((List.range m).map fun i : ℕ =>
        b.footprint.edges.map fun e => make_wall e (floorAt b i) (ceilAt b i))
      ((List.range m).map fun _ : ℕ => SurfEntry.objs [PyObj.pynone])).length = m := by
    rw [zip4_length _ _ _ _ (by simp) (by simp) (by simp)]
    simp
  exact ⟨_,
    by
      rw [stories_eq b m hm hNB, hF, hW,
        zip4_concat _ _ _ _ _ _ _ _ (by simp) (by simp) (by simp),
        buildStoreys_concat],
    by
      rw [List.length_append, buildStoreys_length, hzl, hm]
      simp,
    by rw [List.getLast?_concat, hzl]⟩

/-- The placeholder contract: the ceilings list ends with the bare empty
string, the non-topmost roof entries are the one-element list holding the
`None` marker, `[None]` never occurs inside a ceilings entry, and a
`Zone` built from the topmost storey's surface dict passes the empty
string through as its ceilings value (and its roofs through unchanged). -/
def placeholderSpec (b : Block) : Prop :=
  ∃ cs rs sts,
    b.ceilings = some cs ∧ b.roofs = some rs ∧ b.stories = some sts ∧
    cs.getLast? = some (.str "") ∧
    (∀ i : ℕ, i + 1 < b.num_stories → rs.getD i default = .objs [.pynone]) ∧
    (∀ e ∈ cs, ∀ l : List PyObj, e = .objs l → PyObj.pynone ∉ l) ∧
    sts.length = b.num_stories ∧
    ∀ st : Storey, sts.getLast? = some st →
      st.ceilings = .str ""
      ∧ (mkZone b.name st.surfaceDict).ceilings = .str ""
      ∧ (mkZone b.name st.surfaceDict).roofs = st.roofs

/-- C10: the two placeholder kinds have different, untyped
representations — the last ceilings entry is the empty string `''` while
each non-topmost roofs entry is the one-element list `[None]`; `Zone`
passes both through unfiltered, so a zone built from the topmost storey's
surfaces carries the empty string as its ceilings value, and `[None]`
never appears among the ceilings. -/
theorem claim_C10_placeholders (b : Block) (hN : 1 ≤ b.num_stories)
    (hNB : ((b.num_stories : ℤ) - (b.num_below_ground_stories : ℤ)) ≠ 0) :
    placeholderSpec b := by
  obtain ⟨m, hm⟩ : ∃ m, b.num_stories = m + 1 := ⟨b.num_stories - 1, by omega⟩
  obtain ⟨sts, hsts, hlen, hlast⟩ := stories_last b m hm hNB
  refine ⟨_, _, sts, ceilings_concat b m hm hNB, roofs_concat b m hm hNB, hsts,
    List.getLast?_concat _, ?_, ?_, hlen, ?_⟩
  · intro i hi
    have him : i < m := by omega
    rw [getD_append_left _ _ _ (by simpa using him), getD_map_range _ _ him]
  · intro e he l hl hmem
    rcases List.mem_append.mp he with h | h
    · obtain ⟨i, hi, rfl⟩ := List.mem_map.mp h
      injection hl with hl2
      subst hl2
      simp at hmem
    · have : e = SurfEntry.str "" := by simpa using h
      subst this
      cases hl
  · intro st hst
    rw [hlast] at hst
    injection hst with hst2
    subst hst2
    exact ⟨rfl, rfl, rfl⟩

/-- Witness for C10 at a two-storey block with one basement storey. -/
theorem claim_C10_placeholders_witness :
    1 ≤ (⟨"w", [(0,0),(2,0),(0,2)], 4, 2, 1, 2⟩ : Block).num_stories
    ∧ (((⟨"w", [(0,0),(2,0),(0,2)], 4, 2, 1, 2⟩ : Block).num_stories : ℤ)
        - ((⟨"w", [(0,0),(2,0),(0,2)], 4, 2, 1, 2⟩ : Block).num_below_ground_stories : ℤ)) ≠ 0
    ∧ placeholderSpec ⟨"w", [(0,0),(2,0),(0,2)], 4, 2, 1, 2⟩ :=
  ⟨by decide, by decide, claim_C10_placeholders _ (by decide) (by decide)⟩
